import Mathlib

/-!
# Verification of the cats-of-asia ingestion pipeline

Shallow embedding of the ingestion pipeline of the cats-of-asia repository
(`pkg/ingestion/ingestor.go`, `pkg/postgres/postgres_database.go`, `coa.go`),
together with proofs of the specified properties.

Modelling conventions:
* Go `time.Time` values are modelled by `GoTime`: the wall-clock reading shown by
  `Format(time.DateTime)` (as seconds counted as if the fields were UTC) together
  with the zone offset (seconds east of UTC) and zone name.  The absolute instant
  of a `GoTime` is `wall - offset`.  IANA zones are modelled as fixed-offset
  `Zone` values (`time.LoadLocation` results come from an oracle).
* `float64` latitude/longitude values are only ever compared for equality by the
  pipeline, so they are modelled as (scaled) integers.
* External collaborators (directory listing, file hashing, EXIF decoding, the
  Google Maps timezone and geocoding endpoints, `time.LoadLocation`, image
  decoding/encoding, the upload sink) are oracles collected in `Env`; each oracle
  returns exactly what the corresponding Go call site observes, including errors.
* The relational store is modelled by `DbState` (the three tables touched by the
  pipeline) for the operations the pipeline performs through `coa.Database`;
  transport-level failures of these calls are modelled only where a claim needs
  them (`GetCoordinateID`, whose result comes from the `Env` oracle).
* Go's integer division panics on a zero divisor; `goDiv` returns `none` there,
  and the pipeline-level result type `Outcome` has a dedicated `panicked`
  constructor distinct from returned errors.
-/

set_option autoImplicit false

namespace CatsOfAsia

/-- Errors returned by Go functions.  `noRows` is `sql.ErrNoRows`; every other
error is represented by its message. -/
inductive Err where
  | noRows
  | other (msg : String)
deriving Repr, DecidableEq

/-- The message carried by an error (`err.Error()` in Go). -/
def Err.message : Err → String
  | .noRows => "sql: no rows in result set"
  | .other msg => msg

/-- `fmt.Errorf("<ctx>: %w", err)`.  The wrapped error is an ordinary error
value whose message extends the original one. -/
def wrap (ctx : String) (e : Err) : Err :=
  .other (ctx ++ ": " ++ e.message)

/-- A Go `time.Time`: the wall-clock fields printed by `Format(time.DateTime)`
(encoded as seconds since the Unix epoch as if those fields were UTC), the zone
offset in seconds east of UTC, and the zone name. -/
structure GoTime where
  wall : Int
  offset : Int
  zone : String
deriving Repr, DecidableEq

/-- The absolute instant (seconds since the Unix epoch) denoted by a `GoTime`. -/
def GoTime.instant (t : GoTime) : Int := t.wall - t.offset

/-- A `*time.Location` as used by the pipeline: an IANA zone name with its
offset from UTC in seconds (the pipeline only ever formats/parses single
timestamps, so a fixed offset per zone suffices). -/
structure Zone where
  name : String
  offset : Int
deriving Repr, DecidableEq

/-- `time.UTC`. -/
def utcZone : Zone := ⟨"UTC", 0⟩

/-- Asia/Bangkok, UTC+7 (no daylight saving). -/
def bangkok : Zone := ⟨"Asia/Bangkok", 7 * 3600⟩

/-- `time.ParseInLocation(time.DateTime, s, loc)` where `s` shows the wall-clock
fields `wall`: the same wall-clock reading, reinterpreted in `loc`. -/
def parseInLocation (wall : Int) (z : Zone) : GoTime :=
  ⟨wall, z.offset, z.name⟩

/-- `t.UTC()`: same instant, zone UTC (so the wall-clock fields become the
instant itself). -/
def GoTime.toUTC (t : GoTime) : GoTime :=
  ⟨t.wall - t.offset, 0, "UTC"⟩

/-- The wall-clock reading `2023-06-01 14:00:00` (seconds since the epoch of
those fields taken as UTC). -/
def wall_2023_06_01_14_00_00 : Int := 1685628000

/-- The absolute instant `2023-06-01 07:00:00 UTC`. -/
def instant_2023_06_01_07_00_00_UTC : Int := 1685602800

/-- `coa.Image` (`coa.go`).  URLs are kept as strings; `none` models a nil
`*url.URL` / `*int64`. -/
structure Image where
  id : Int
  coordinateID : Option Int
  pathLarge : String
  pathMedium : String
  pathSmall : String
  urlLarge : Option String
  urlMedium : Option String
  urlSmall : Option String
  sha256 : String
  timestamp : GoTime
  timezone : String
  latitude : Int
  longitude : Int
  city : String
  country : String
deriving Repr, DecidableEq

/-- The zero value of `coa.Image` (Go composite literals zero-fill omitted
fields). -/
def emptyImage : Image :=
  ⟨0, none, "", "", "", none, none, none, "", ⟨0, 0, "UTC"⟩, "", 0, 0, "", ""⟩

/-- ASCII lower-casing of one character (what `strings.ToLower` does on the
ASCII file names the scanner sees). -/
def charToLower (c : Char) : Char :=
  if 65 ≤ c.toNat ∧ c.toNat ≤ 90 then Char.ofNat (c.toNat + 32) else c

/-- `strings.ToLower` on ASCII strings. -/
def strToLower (s : String) : String :=
  ⟨s.data.map charToLower⟩

/-- `strings.HasSuffix`. -/
def strEndsWith (s suffix : String) : Bool :=
  decide (suffix.data.length ≤ s.data.length) &&
    decide (s.data.drop (s.data.length - suffix.data.length) = suffix.data)

/-- `coa.IsSupportedMedia` (`coa.go`): lower-case name ends in `.jpg` or
`.jpeg`. -/
def isSupportedMedia (filename : String) : Bool :=
  let filename := strToLower filename
  strEndsWith filename ".jpg" || strEndsWith filename ".jpeg"

/-- `strings.TrimSuffix`. -/
def trimSuffix (s suffix : String) : String :=
  if strEndsWith s suffix then ⟨s.data.take (s.data.length - suffix.data.length)⟩
  else s

/-- Split a character list at a separator (every occurrence, keeping empty
segments, as `strings.Split` does). -/
def splitOnChar (sep : Char) : List Char → List (List Char)
  | [] => [[]]
  | c :: cs =>
      let rest := splitOnChar sep cs
      if c = sep then [] :: rest
      else
        match rest with
        | [] => [[c]]
        | r :: rs => (c :: r) :: rs

/-- Join character-list segments with a separator. -/
def intercalateChar (sep : Char) : List (List Char) → List Char
  | [] => []
  | [x] => x
  | x :: xs => x ++ sep :: intercalateChar sep xs

/-- `filepath.Ext`: the suffix beginning at the final dot in the final
slash-separated element, `""` if there is none. -/
def filepathExt (p : String) : String :=
  let base := (splitOnChar '/' p.data).getLastD []
  match splitOnChar '.' base with
  | [_] => ""
  | parts => ⟨'.' :: parts.getLastD []⟩

/-- `filepath.Base` for slash-separated paths without a trailing slash. -/
def filepathBase (p : String) : String :=
  ⟨(splitOnChar '/' p.data).getLastD []⟩

/-- `filepath.Dir` for slash-separated paths without a trailing slash
(`"."` when the path has no slash). -/
def filepathDir (p : String) : String :=
  let parts := splitOnChar '/' p.data
  if parts.length ≤ 1 then "." else ⟨intercalateChar '/' parts.dropLast⟩

/-- `imageWidthSmall` (`ingestor.go`). -/
def imageWidthSmall : Nat := 300
/-- `imageWidthMedium` (`ingestor.go`). -/
def imageWidthMedium : Nat := 600
/-- `imageSuffixSmall` (`ingestor.go`). -/
def imageSuffixSmall : String := "-small"
/-- `imageSuffixMedium` (`ingestor.go`). -/
def imageSuffixMedium : String := "-medium"

/-- Go integer division on the (non-negative) pixel dimensions involved in
resizing: `none` models the runtime panic on a zero divisor. -/
def goDiv (a b : Nat) : Option Nat :=
  if b = 0 then none else some (a / b)

/-- The derivative height computed at `ingestor.go:480`:
`src.Bounds().Max.Y / (src.Bounds().Max.X / width)`.  The inner division is by
the constant positive target width; the outer one panics when it is zero. -/
def resizeHeight (srcW srcH width : Nat) : Option Nat :=
  goDiv srcH (srcW / width)

/-- What `os.Stat` observes for a path: no file (`os.ErrNotExist`), a regular
file, a directory, or any other stat failure. -/
inductive FsEntry where
  | absent
  | file
  | dir
  | statError (msg : String)
deriving Repr, DecidableEq

/-- The local filesystem as observed/updated by the resizer: an association of
paths to entries; unlisted paths are absent. -/
def Fs := List (String × FsEntry)
deriving Repr, DecidableEq

/-- Stat a path. -/
def lookupFs (fs : Fs) (p : String) : FsEntry :=
  match List.find? (fun e => e.1 = p) fs with
  | some e => e.2
  | none => .absent

/-- Record that a path now holds the given entry (used when `encodeImage`
creates the derivative file). -/
def updateFs (fs : Fs) (p : String) (v : FsEntry) : Fs :=
  (p, v) :: List.filter (fun e => ¬ (e.1 = p)) fs

/-- A row of the `locations` table (unique on city+country). -/
structure LocationRow where
  id : Int
  city : String
  country : String
  timezone : String
deriving Repr, DecidableEq

/-- A row of the `coordinates` table (unique on latitude+longitude). -/
structure CoordinateRow where
  id : Int
  latitude : Int
  longitude : Int
  locationID : Int
deriving Repr, DecidableEq

/-- A row of the `images` table, as written by `InsertImages`
(`postgres_database.go:313`). -/
structure ImageRow where
  pathLarge : String
  pathMedium : String
  pathSmall : String
  sha256 : String
  timestamp : GoTime
  coordinateID : Int
deriving Repr, DecidableEq

/-- The three tables the pipeline touches, plus the id sequence used for new
rows. -/
structure DbState where
  locations : List LocationRow
  coordinates : List CoordinateRow
  images : List ImageRow
  nextID : Int
deriving Repr, DecidableEq

/-- `pgDatabase.GetOrCreateLocation` (`postgres_database.go:49`):
`INSERT ... ON CONFLICT (city, country) DO NOTHING`, then
`SELECT id ... WHERE city = $1 and country = $2`. -/
def getOrCreateLocation (db : DbState) (city country timezone : String) :
    DbState × Int :=
  match List.find? (fun l => l.city = city ∧ l.country = country) db.locations with
  | some l => (db, l.id)
  | none =>
      let id := db.nextID
      ({ db with
          locations := db.locations ++ [⟨id, city, country, timezone⟩],
          nextID := id + 1 },
        id)

/-- `pgDatabase.GetOrCreateCoordinates` (`postgres_database.go:73`):
`INSERT ... ON CONFLICT (latitude, longitude) DO NOTHING`, then
`SELECT id ... WHERE latitude = $1 and longitude = $2`. -/
def getOrCreateCoordinates (db : DbState) (latitude longitude : Int)
    (locationId : Int) : DbState × Int :=
  match List.find? (fun c => c.latitude = latitude ∧ c.longitude = longitude)
      db.coordinates with
  | some c => (db, c.id)
  | none =>
      let id := db.nextID
      ({ db with
          coordinates := db.coordinates ++ [⟨id, latitude, longitude, locationId⟩],
          nextID := id + 1 },
        id)

/-- `pgDatabase.RemoveKnownImages` (`postgres_database.go:261`): query the
stored rows whose hash is among the candidates' hashes, then keep only the
candidates whose hash was not returned. -/
def removeKnownImages (db : DbState) (images : List Image) : List Image :=
  let hashes := images.map (fun img => img.sha256)
  let knownImages :=
    (List.filter (fun row => hashes.contains row.sha256) db.images).map
      (fun row => row.sha256)
  List.filter (fun img => ¬ (knownImages.contains img.sha256)) images

/-- `pgDatabase.InsertImages` (`postgres_database.go:298`): per image, when no
coordinate id is attached, get-or-create the location and the coordinate rows;
then insert the image row. -/
def insertImages (db : DbState) (images : List Image) : DbState :=
  images.foldl
    (fun db img =>
      let dbAndCoordID : DbState × Int :=
        match img.coordinateID with
        | some cid => (db, cid)
        | none =>
            let (db, locId) :=
              getOrCreateLocation db img.city img.country img.timezone
            getOrCreateCoordinates db img.latitude img.longitude locId
      let db := dbAndCoordID.1
      { db with
          images := db.images ++
            [⟨img.pathLarge, img.pathMedium, img.pathSmall, img.sha256,
              img.timestamp, dbAndCoordID.2⟩] })
    db

instance {ε α : Type} [DecidableEq ε] [DecidableEq α] : DecidableEq (Except ε α) :=
  fun a b =>
    match a, b with
    | .error e, .error f =>
        if h : e = f then isTrue (by subst h; rfl)
        else isFalse (by intro hh; injection hh; contradiction)
    | .ok x, .ok y =>
        if h : x = y then isTrue (by subst h; rfl)
        else isFalse (by intro hh; injection hh; contradiction)
    | .error _, .ok _ => isFalse (by intro hh; injection hh)
    | .ok _, .error _ => isFalse (by intro hh; injection hh)

/-- The decoded EXIF block of one file: what `exifData.LatLong()` and
`exifData.DateTime()` return. -/
structure ExifData where
  latLong : Except Err (Int × Int)
  dateTime : Except Err GoTime
deriving Repr, DecidableEq

/-- An address component of a reverse-geocoding result
(`maps.AddressComponent`). -/
structure AddressComponent where
  longName : String
  types : List String
deriving Repr, DecidableEq

/-- One entry of the reverse-geocoding result list (only the address
components are read by the pipeline). -/
structure GeoResult where
  addressComponents : List AddressComponent
deriving Repr, DecidableEq

/-- A metered external call issued by the timezone or geocoding stage
(instrumentation used to state the no-redundant-call properties). -/
inductive ExtCall where
  | timezone (lat lng : Int)
  | geocode (lat lng : Int)
deriving Repr, DecidableEq

/-- The external collaborators of one ingestion run.  Each field is the
response observed at the corresponding Go call site. -/
structure Env where
  /-- the ingestor's `verbose` flag -/
  verbose : Bool
  /-- `os.ReadDir(dir)`: the entry names, in directory order -/
  readDir : String → Except Err (List String)
  /-- opening the file and streaming it through `crypto/sha256`
  (`ingestor.go:185`-`200`); the hex digest on success -/
  hashFile : String → Except Err String
  /-- `exif.Decode` (`ingestor.go:202`) -/
  exif : String → Except Err ExifData
  /-- `decodeImage` (`ingestor.go:565`): the decoded raster's
  `(Bounds().Max.X, Bounds().Max.Y)` -/
  decode : String → Except Err (Nat × Nat)
  /-- `encodeImage` (`ingestor.go:588`): `some e` when creating/encoding the
  derivative file fails -/
  encodeOk : String → Option Err
  /-- `db.GetCoordinateID` (`postgres_database.go:97`): the coordinates-table
  lookup, including transport errors; misses surface as `Err.noRows` -/
  getCoordinateID : Int → Int → Except Err Int
  /-- the Maps timezone endpoint (`ingestor.go:312`): `res.TimeZoneID` for the
  given request timestamp and coordinate -/
  timezoneID : GoTime → Int → Int → Except Err String
  /-- `time.LoadLocation` (`ingestor.go:317`) -/
  loadLocation : String → Except Err Zone
  /-- the Maps reverse-geocoding endpoint (`ingestor.go:345`) -/
  geocode : Int → Int → Except Err (List GeoResult)
  /-- `uploadFile` (`ingestor.go:528`): the cleaned `webContentLink` URL -/
  upload : String → Except Err String

/-- The loop body of `collectFileInfo` (`ingestor.go:172`-`229`) over the
directory entries. -/
def collectFileInfoLoop (env : Env) (dir : String) :
    List String → Except Err (List Image)
  | [] => .ok []
  | name :: rest =>
    if isSupportedMedia name = false then
      collectFileInfoLoop env dir rest
    else
      -- skip resized images that may have been created in a previous run
      let basename := trimSuffix name (filepathExt name)
      if strEndsWith basename imageSuffixSmall || strEndsWith basename imageSuffixMedium then
        collectFileInfoLoop env dir rest
      else
        let abspath := dir ++ "/" ++ name
        match env.hashFile abspath with
        | .error e =>
            .error (wrap ("unable to calculate SHA256 checksum of file at " ++ abspath) e)
        | .ok hash =>
        match env.exif abspath with
        | .error e =>
            .error (wrap ("unable to decode exif data from file at " ++ abspath) e)
        | .ok exifData =>
        match exifData.latLong with
        | .error e =>
            .error (wrap ("unable to read GPS coords from exif data in file at " ++ abspath) e)
        | .ok (latitude, longitude) =>
        match exifData.dateTime with
        | .error e =>
            .error (wrap ("unable to read timestamp from  exif data in file at " ++ abspath) e)
        | .ok creationTime =>
        match collectFileInfoLoop env dir rest with
        | .error e => .error e
        | .ok images =>
            .ok ({ emptyImage with
                    pathLarge := abspath,
                    sha256 := hash,
                    latitude := latitude,
                    longitude := longitude,
                    timestamp := creationTime } :: images)

/-- `Ingestor.collectFileInfo` (`ingestor.go:160`). -/
def collectFileInfo (env : Env) (dir : String) : Except Err (List Image) :=
  match env.readDir dir with
  | .error e => .error (wrap ("os.ReadDir(" ++ dir ++ ")") e)
  | .ok entries => collectFileInfoLoop env dir entries

/-- `Ingestor.setCoordinateID` (`ingestor.go:239`): attach the stored
coordinate id on a hit, pass through on `sql.ErrNoRows`, fail on any other
lookup error. -/
def setCoordinateID (env : Env) : List Image → Except Err (List Image)
  | [] => .ok []
  | img :: rest =>
    match env.getCoordinateID img.latitude img.longitude with
    | .error .noRows =>
        match setCoordinateID env rest with
        | .error e => .error e
        | .ok imgs => .ok (img :: imgs)
    | .error e => .error e
    | .ok coordID =>
        match setCoordinateID env rest with
        | .error e => .error e
        | .ok imgs => .ok ({ img with coordinateID := some coordID } :: imgs)

/-- `Ingestor.getTimezoneID` (`ingestor.go:297`): reinterpret the timestamp as
UTC purely to form the request, call the timezone endpoint, then
`time.LoadLocation` the returned zone id. -/
def getTimezoneID (env : Env) (t : GoTime) (lat lng : Int) : Except Err Zone :=
  let t := parseInLocation t.wall utcZone
  match env.timezoneID t lat lng with
  | .error e => .error e
  | .ok tzid => env.loadLocation tzid

/-- `Ingestor.fixTimezones` (`ingestor.go:258`).  Besides the images it returns
the metered calls issued, for stating the cache-hit no-call property. -/
def fixTimezones (env : Env) : List Image → Except Err (List Image × List ExtCall)
  | [] => .ok ([], [])
  | img :: rest =>
    if img.coordinateID.isSome then
      -- coordinate ID already set: skipping
      match fixTimezones env rest with
      | .error e => .error e
      | .ok (imgs, calls) => .ok (img :: imgs, calls)
    else
      match getTimezoneID env img.timestamp img.latitude img.longitude with
      | .error e => .error e
      | .ok tzID =>
          let localTS := parseInLocation img.timestamp.wall tzID
          match fixTimezones env rest with
          | .error e => .error e
          | .ok (imgs, calls) =>
              .ok ({ img with timestamp := localTS.toUTC, timezone := tzID.name } :: imgs,
                ExtCall.timezone img.latitude img.longitude :: calls)

/-- The mutable locals of the component loop in `reverseGeocode`
(`ingestor.go:358`-`386`): the image's city/country fields plus the
`neighborhood` variable. -/
structure GeoState where
  city : String
  country : String
  neighborhood : String
deriving Repr, DecidableEq

/-- The `administrative_area_level_1` switch (`ingestor.go:364`-`375`): the
fixed locale-override table, defaulting to the raw label. -/
def cityFromAdminArea (longName : String) : String :=
  if longName = "กรุงเทพมหานคร" then "Bangkok"
  else if longName = "เชียงใหม่" then "Chang Wat Chiang Mai"
  else if longName = "Chang Wat Samut Prakan" then "Samut Prakan"
  else if longName = "Wilayah Persekutuan Kuala Lumpur" then "Kuala Lumpur"
  else longName

/-- One iteration of the inner type loop (`ingestor.go:360`-`381`), without the
early exit. -/
def applyComponentType (longName : String) (t : String) (st : GeoState) : GeoState :=
  if t = "neighborhood" then
    { st with neighborhood := longName }
  else if t = "administrative_area_level_1" then
    { st with city := cityFromAdminArea longName }
  else if t = "country" then
    let st := { st with country := longName }
    if longName = "Taiwan" then { st with city := st.neighborhood } else st
  else st

/-- The inner loop over one component's types, with the `break` once both city
and country are non-empty (`ingestor.go:382`-`384`).  The `break` leaves only
this inner loop; the outer component loop continues. -/
def processComponentTypes (longName : String) (st : GeoState) :
    List String → GeoState
  | [] => st
  | t :: ts =>
      let st := applyComponentType longName t st
      if st.city ≠ "" ∧ st.country ≠ "" then st
      else processComponentTypes longName st ts

/-- The outer loop over all address components (`ingestor.go:359`). -/
def geocodeComponents (components : List AddressComponent) (st : GeoState) :
    GeoState :=
  components.foldl (fun st comp => processComponentTypes comp.longName st comp.types) st

/-- `Ingestor.reverseGeocode` (`ingestor.go:320`).  Also returns the metered
calls issued. -/
def reverseGeocode (env : Env) : List Image → Except Err (List Image × List ExtCall)
  | [] => .ok ([], [])
  | img :: rest =>
    if img.coordinateID.isSome then
      -- coordinate ID already set: skipping
      match reverseGeocode env rest with
      | .error e => .error e
      | .ok (imgs, calls) => .ok (img :: imgs, calls)
    else
      match env.geocode img.latitude img.longitude with
      | .error e => .error e
      | .ok locs =>
        if locs.length = 0 ∨ (locs.headD ⟨[]⟩).addressComponents.length = 0 then
          .error (.other
            "the Google Maps API did not return required address components")
        else
          let st := geocodeComponents (locs.headD ⟨[]⟩).addressComponents
            ⟨img.city, img.country, ""⟩
          if st.city = "" ∨ st.country = "" then
            .error (.other "couldn't find either city or country for coordinates")
          else
            match reverseGeocode env rest with
            | .error e => .error e
            | .ok (imgs, calls) =>
                .ok ({ img with city := st.city, country := st.country } :: imgs,
                  ExtCall.geocode img.latitude img.longitude :: calls)

/-- `Ingestor.uploadImages` (`ingestor.go:491`): per image, upload the large,
medium and small files and record the returned URLs. -/
def uploadImages (env : Env) : List Image → Except Err (List Image)
  | [] => .ok []
  | img :: rest =>
    match env.upload img.pathLarge with
    | .error e => .error e
    | .ok urlLarge =>
    match env.upload img.pathMedium with
    | .error e => .error e
    | .ok urlMedium =>
    match env.upload img.pathSmall with
    | .error e => .error e
    | .ok urlSmall =>
    match uploadImages env rest with
    | .error e => .error e
    | .ok imgs =>
        .ok ({ img with
                urlLarge := some urlLarge,
                urlMedium := some urlMedium,
                urlSmall := some urlSmall } :: imgs)

/-- The result of a Go computation that may also end in a runtime panic
(integer division by zero), distinct from a returned error. -/
inductive Outcome (α : Type) where
  | ok (val : α)
  | err (e : Err)
  | panicked
deriving Repr, DecidableEq

/-- The derivative path computed at `ingestor.go:453`-`457`:
`filepath.Join(dir, withoutExt + suffix + ext)`. -/
def derivPath (path suffix : String) : String :=
  let dir := filepathDir path
  let basename := filepathBase path
  let ext := filepathExt path
  let withoutExt := trimSuffix basename ext
  dir ++ "/" ++ withoutExt ++ suffix ++ ext

/-- `Ingestor.resizeImage` (`ingestor.go:452`).  On success it returns the
derivative path, the updated filesystem, and whether the source was actually
decoded and re-encoded (false on the existing-file early return). -/
def resizeImage (env : Env) (fs : Fs) (path suffix : String) (width : Nat) :
    Outcome (String × Fs × Bool) :=
  let pathResized := derivPath path suffix
  -- make sure the resized file does not exist already and there is no
  -- directory with the same name
  match lookupFs fs pathResized with
  | .statError msg => .err (.other msg)
  | .dir => .err (.other ("cannot write resized image to " ++ pathResized ++
      ". a directory with that name already exists"))
  | .file =>
      -- file already exists, nothing to do
      .ok (pathResized, fs, false)
  | .absent =>
    match env.decode path with
    | .error e => .err e
    | .ok (srcW, srcH) =>
      match resizeHeight srcW srcH width with
      | none => .panicked
      | some _height =>
        match env.encodeOk pathResized with
        | some e => .err e
        | none => .ok (pathResized, updateFs fs pathResized .file, true)

/-- `Ingestor.resizeImages` (`ingestor.go:422`): per image, produce the small
then the medium derivative. -/
def resizeImages (env : Env) (fs : Fs) : List Image → Outcome (List Image × Fs)
  | [] => .ok ([], fs)
  | img :: rest =>
    match resizeImage env fs img.pathLarge imageSuffixSmall imageWidthSmall with
    | .err e => .err e
    | .panicked => .panicked
    | .ok (pathSmall, fs, _) =>
      match resizeImage env fs img.pathLarge imageSuffixMedium imageWidthMedium with
      | .err e => .err e
      | .panicked => .panicked
      | .ok (pathMedium, fs, _) =>
        match resizeImages env fs rest with
        | .err e => .err e
        | .panicked => .panicked
        | .ok (imgs, fs) =>
            .ok ({ img with pathSmall := pathSmall, pathMedium := pathMedium } :: imgs, fs)

/-- `Ingestor.IngestDirectory` (`ingestor.go:110`): the whole run.  Returns the
run result together with the final filesystem and database states. -/
def ingestDirectory (env : Env) (fs : Fs) (db : DbState) (dir : String) :
    Outcome (List Image) × Fs × DbState :=
  match collectFileInfo env dir with
  | .error e => (.err e, fs, db)
  | .ok images =>
  let images := removeKnownImages db images
  if images.length == 0 && env.verbose then
    -- "no new images found": early successful return
    (.ok images, fs, db)
  else
  match resizeImages env fs images with
  | .err e => (.err (wrap "error while resizing images" e), fs, db)
  | .panicked => (.panicked, fs, db)
  | .ok (images, fs) =>
  -- `ingestor.go:132`-`135`: a failed coordinate lookup is only logged (and
  -- only when verbose); the run continues with the (nil) returned slice.
  let images :=
    match setCoordinateID env images with
    | .error _ => []
    | .ok imgs => imgs
  match fixTimezones env images with
  | .error e => (.err (wrap "error while fixing timezones" e), fs, db)
  | .ok (images, _) =>
  match reverseGeocode env images with
  | .error e => (.err (wrap "error while reverse geocoding" e), fs, db)
  | .ok (images, _) =>
  match uploadImages env images with
  | .error e => (.err (wrap "error while uploading files to Google Drive" e), fs, db)
  | .ok images =>
  let db := insertImages db images
  (.ok images, fs, db)

/-! ## Concrete scenarios used by witnesses and counterexamples -/

/-- An environment whose oracles are never consulted successfully; scenarios
override the fields they need. -/
def unusedEnv : Env := {
  verbose := false
  readDir := fun _ => .error (.other "unused")
  hashFile := fun _ => .error (.other "unused")
  exif := fun _ => .error (.other "unused")
  decode := fun _ => .error (.other "unused")
  encodeOk := fun _ => some (.other "unused")
  getCoordinateID := fun _ _ => .error (.other "unused")
  timezoneID := fun _ _ _ => .error (.other "unused")
  loadLocation := fun _ => .error (.other "unused")
  geocode := fun _ _ => .error (.other "unused")
  upload := fun _ => .ok "https://drive.example/uc?id=1"
}

/-- The naive camera reading `2023-06-01 14:00:00` as decoded from EXIF (Go
parses it in `time.Local`; only the wall-clock fields matter). -/
def imgTSNaive : GoTime := ⟨wall_2023_06_01_14_00_00, 0, "Local"⟩

/-- A directory with one new image whose coordinate lookup fails with a
non-not-found database error. -/
def envC1 : Env := { unusedEnv with
  readDir := fun _ => .ok ["cat.jpg"]
  hashFile := fun _ => .ok "h1"
  exif := fun _ => .ok ⟨.ok (13, 100), .ok imgTSNaive⟩
  getCoordinateID := fun _ _ => .error (.other "connection reset by peer")
}

/-- Both derivative files already exist, so resizing is skipped. -/
def fsDerivsExist : Fs :=
  [("cats/cat-small.jpg", .file), ("cats/cat-medium.jpg", .file)]

/-- An empty store. -/
def dbEmpty : DbState := ⟨[], [], [], 1⟩

/-- A directory with one new image whose exact coordinate is already stored
under coordinate id 42 (a coordinate-cache hit). -/
def envC2 : Env := { unusedEnv with
  readDir := fun _ => .ok ["cat.jpg"]
  hashFile := fun _ => .ok "h1"
  exif := fun _ => .ok ⟨.ok (13, 100), .ok imgTSNaive⟩
  getCoordinateID := fun la lo => if la = 13 ∧ lo = 100 then .ok 42 else .error .noRows
  timezoneID := fun _ _ _ => .ok "Asia/Bangkok"
  loadLocation := fun s => if s = "Asia/Bangkok" then .ok bangkok else .error (.other "unknown zone")
}

/-- A store already holding the Bangkok location and coordinate 42. -/
def dbC2 : DbState :=
  ⟨[⟨7, "Bangkok", "Thailand", "Asia/Bangkok"⟩], [⟨42, 13, 100, 7⟩], [], 100⟩

/-- A cache-hit candidate as it reaches the timezone stage. -/
def imgHitC2 : Image :=
  { emptyImage with
      coordinateID := some 42, pathLarge := "cats/cat.jpg", sha256 := "h1",
      timestamp := imgTSNaive, latitude := 13, longitude := 100 }

/-- The same candidate without the cache-hit marker. -/
def imgMissC2 : Image := { imgHitC2 with coordinateID := none }

/-- A timezone oracle resolving every coordinate to Asia/Bangkok. -/
def envC3 : Env := { unusedEnv with
  timezoneID := fun _ _ _ => .ok "Asia/Bangkok"
  loadLocation := fun s => if s = "Asia/Bangkok" then .ok bangkok else .error (.other "unknown zone")
}

/-- An unresolved candidate carrying the naive reading `2023-06-01 14:00:00`. -/
def imgC3 : Image :=
  { emptyImage with
      pathLarge := "cats/cat.jpg", sha256 := "h1", timestamp := imgTSNaive,
      latitude := 13, longitude := 100 }

/-- A store lookup that hits coordinate id 42 for (13, 100). -/
def envC4 : Env := { unusedEnv with
  getCoordinateID := fun la lo => if la = 13 ∧ lo = 100 then .ok 42 else .error .noRows
}

/-- A decodable 1200x800 source and a writable output directory. -/
def envC6 : Env := { unusedEnv with
  decode := fun _ => .ok (1200, 800)
  encodeOk := fun _ => none
}

/-- The filesystem after the first successful small-derivative resize of
`d/cat.jpg` from the empty filesystem. -/
def fsC6 : Fs := [("d/cat-small.jpg", .file)]

/-- A Taiwan reverse-geocoding result whose components arrive in the order
neighborhood, country, administrative area. -/
def taiwanComponents : List AddressComponent :=
  [⟨"信義區", ["neighborhood"]⟩,
   ⟨"Taiwan", ["country"]⟩,
   ⟨"臺北市", ["administrative_area_level_1"]⟩]

/-- A geocoder returning `taiwanComponents` for every coordinate. -/
def envC7 : Env := { unusedEnv with
  geocode := fun _ _ => .ok [⟨taiwanComponents⟩]
}

/-- An unresolved candidate at a Taipei coordinate. -/
def imgC7 : Image :=
  { emptyImage with pathLarge := "cats/cat.jpg", latitude := 25, longitude := 121 }

/-- A directory whose single image is already stored (same content hash). -/
def envC8 : Env := { unusedEnv with
  readDir := fun _ => .ok ["cat.jpg"]
  hashFile := fun _ => .ok "deadbeef"
  exif := fun _ => .ok ⟨.ok (13, 100), .ok imgTSNaive⟩
}

/-- A store already holding a row with the hash `deadbeef`. -/
def dbC8 : DbState :=
  ⟨[⟨7, "Bangkok", "Thailand", "Asia/Bangkok"⟩], [⟨42, 13, 100, 7⟩],
   [⟨"old/cat.jpg", "old/cat-medium.jpg", "old/cat-small.jpg", "deadbeef", imgTSNaive, 42⟩],
   100⟩

/-- A directory with one supported image whose EXIF block has no GPS tag. -/
def envC9 : Env := { unusedEnv with
  readDir := fun _ => .ok ["cat.jpg"]
  hashFile := fun _ => .ok "h9"
  exif := fun _ => .ok ⟨.error (.other "exif: tag GPSLatitude is not present"), .ok imgTSNaive⟩
}

/-- A decodable source narrower (480 px) than the medium target width. -/
def envC10 : Env := { unusedEnv with
  decode := fun _ => .ok (480, 640)
}

/-! ## Helper lemmas -/

theorem lookupFs_updateFs (fs : Fs) (p : String) (v : FsEntry) :
    lookupFs (updateFs fs p v) p = v := by
  simp [lookupFs, updateFs]

theorem getOrCreateLocation_images (db : DbState) (city country timezone : String) :
    (getOrCreateLocation db city country timezone).1.images = db.images := by
  unfold getOrCreateLocation
  split <;> rfl

theorem getOrCreateCoordinates_images (db : DbState) (latitude longitude : Int)
    (locationId : Int) :
    (getOrCreateCoordinates db latitude longitude locationId).1.images = db.images := by
  unfold getOrCreateCoordinates
  split <;> rfl

/-! ## Claims -/

/-- Claim C10: for every decodable source whose pixel width is strictly below
the target width, the height computation of `resizeImage` divides by zero (a
runtime panic) instead of returning an error. -/
theorem resize_panics_on_narrow_source (env : Env) (fs : Fs) (path suffix : String)
    (width srcW srcH : Nat)
    (habsent : lookupFs fs (derivPath path suffix) = .absent)
    (hdecode : env.decode path = .ok (srcW, srcH))
    (hnarrow : srcW < width) :
    resizeHeight srcW srcH width = none ∧
    resizeImage env fs path suffix width = .panicked := by
  have hq : srcW / width = 0 := Nat.div_eq_of_lt hnarrow
  have hh : resizeHeight srcW srcH width = none := by
    simp [resizeHeight, goDiv, hq]
  refine ⟨hh, ?_⟩
  simp only [resizeImage, habsent, hdecode, hh]

/-- Witness for C10: a 480x640 source resized to the medium width 600. -/
theorem resize_panics_on_narrow_source_witness :
    resizeHeight 480 640 imageWidthMedium = none ∧
    resizeImage envC10 [] "cats/cat.jpg" imageSuffixMedium imageWidthMedium = .panicked :=
  resize_panics_on_narrow_source envC10 [] "cats/cat.jpg" imageSuffixMedium
    imageWidthMedium 480 640 (by decide) (by decide) (by decide)

/-- Counterexample to claim C5 as stated: a 4000x3000 source resized to width
600 gets height `3000 / (4000 / 600) = 500`, while scaling the source height by
the width ratio gives `3000 * 600 / 4000 = 450`, so the computed height does
not satisfy the exact aspect-ratio equation `height * srcW = srcH * width`. -/
theorem resizeHeight_not_exact_counterexample :
    resizeHeight 4000 3000 imageWidthMedium = some 500 ∧
    3000 * 600 / 4000 = 450 ∧
    ¬ (500 * 4000 = 3000 * 600) := by decide

/-- Claim C5 (amended): the derivative height is `srcH / (srcW / width)` with
truncating integer division; whenever `width` divides `srcW` and the quotient
`srcW / width` divides `srcH`, this equals the exactly scaled height
`srcH * width / srcW`, which then satisfies `height * srcW = srcH * width`. -/
theorem resizeHeight_exact_when_divisible (srcW srcH width : Nat)
    (hpos : 0 < srcW) (hdvd : width ∣ srcW) (hq : (srcW / width) ∣ srcH) :
    resizeHeight srcW srcH width = some (srcH * width / srcW) ∧
    srcH * width / srcW * srcW = srcH * width := by
  have hwpos : 0 < width := by
    rcases Nat.eq_zero_or_pos width with h | h
    · subst h
      obtain ⟨k, hk⟩ := hdvd
      omega
    · exact h
  obtain ⟨k, hk⟩ := hdvd
  have hkq : srcW / width = k := by
    rw [hk, Nat.mul_div_cancel_left k hwpos]
  have hkpos : 0 < k := by
    rcases Nat.eq_zero_or_pos k with h | h
    · subst h; omega
    · exact h
  have hscaled : srcH * width / srcW = srcH / k := by
    rw [hk, Nat.mul_comm srcH width, Nat.mul_div_mul_left srcH k hwpos]
  obtain ⟨m, hm⟩ := hq
  rw [hkq] at hm
  have hdivk : srcH / k = m := by
    rw [hm, Nat.mul_div_cancel_left m hkpos]
  have hkne : ¬ k = 0 := by omega
  constructor
  · rw [hscaled, resizeHeight, goDiv, hkq]
    simp [hkne, hdivk]
  · rw [hscaled, hdivk, hk, hm]
    ring

/-- Witness for C5 (amended): a 1200x800 source at width 600 yields exactly the
scaled height 400. -/
theorem resizeHeight_exact_when_divisible_witness :
    resizeHeight 1200 800 600 = some (800 * 600 / 1200) ∧
    800 * 600 / 1200 * 1200 = 800 * 600 :=
  resizeHeight_exact_when_divisible 1200 800 600 (by decide) (by decide) (by decide)

/-- Claim C3: for an unresolved candidate, the timezone corrector reinterprets
the original naive wall-clock reading in the resolved zone and converts it to
the absolute UTC instant `wall - offset`, recording the zone name. -/
theorem fixTimezones_reinterprets (env : Env) (img : Image) (tzName : String)
    (tz : Zone)
    (hmiss : img.coordinateID = none)
    (hreq : env.timezoneID (parseInLocation img.timestamp.wall utcZone)
      img.latitude img.longitude = .ok tzName)
    (hload : env.loadLocation tzName = .ok tz) :
    fixTimezones env [img] =
      .ok ([{ img with
              timestamp := ⟨img.timestamp.wall - tz.offset, 0, "UTC"⟩,
              timezone := tz.name }],
        [ExtCall.timezone img.latitude img.longitude]) := by
  have hreq2 : env.timezoneID ⟨img.timestamp.wall, 0, "UTC"⟩ img.latitude img.longitude =
      .ok tzName := by
    simpa [parseInLocation, utcZone] using hreq
  simp [fixTimezones, getTimezoneID, hmiss, hreq2, hload, parseInLocation, utcZone,
    GoTime.toUTC]

/-- Witness for C3: the naive reading `2023-06-01 14:00:00` with resolved zone
Asia/Bangkok is persisted as the instant `2023-06-01 07:00:00 UTC`, not as
`14:00:00` taken to be UTC already. -/
theorem fixTimezones_reinterprets_witness :
    fixTimezones envC3 [imgC3] =
      .ok ([{ imgC3 with
              timestamp := ⟨imgC3.timestamp.wall - bangkok.offset, 0, "UTC"⟩,
              timezone := bangkok.name }],
        [ExtCall.timezone imgC3.latitude imgC3.longitude]) ∧
    (⟨imgC3.timestamp.wall - bangkok.offset, 0, "UTC"⟩ : GoTime).instant =
      instant_2023_06_01_07_00_00_UTC ∧
    ¬ (instant_2023_06_01_07_00_00_UTC = wall_2023_06_01_14_00_00) :=
  ⟨fixTimezones_reinterprets envC3 imgC3 "Asia/Bangkok" bangkok rfl (by decide) (by decide),
   by decide, by decide⟩

/-- Claim C4: a candidate whose exact coordinate pair is already stored gets
the stored coordinate id attached; the timezone and geocoding stages then issue
no external call and pass it through unchanged, and the persister inserts the
image row referencing the stored id without touching the location or
coordinate tables. -/
theorem coordinate_cache_hit (env : Env) (db : DbState) (img : Image) (cid : Int)
    (hhit : env.getCoordinateID img.latitude img.longitude = .ok cid) :
    setCoordinateID env [img] = .ok [{ img with coordinateID := some cid }] ∧
    fixTimezones env [{ img with coordinateID := some cid }] =
      .ok ([{ img with coordinateID := some cid }], []) ∧
    reverseGeocode env [{ img with coordinateID := some cid }] =
      .ok ([{ img with coordinateID := some cid }], []) ∧
    insertImages db [{ img with coordinateID := some cid }] =
      { db with images := db.images ++
          [⟨img.pathLarge, img.pathMedium, img.pathSmall, img.sha256,
            img.timestamp, cid⟩] } := by
  refine ⟨?_, ?_, ?_, ?_⟩
  · simp [setCoordinateID, hhit]
  · simp [fixTimezones]
  · simp [reverseGeocode]
  · simp [insertImages]

/-- Witness for C4: a hit on coordinate id 42 at (13, 100). -/
theorem coordinate_cache_hit_witness :
    setCoordinateID envC4 [imgC3] = .ok [{ imgC3 with coordinateID := some 42 }] ∧
    fixTimezones envC4 [{ imgC3 with coordinateID := some 42 }] =
      .ok ([{ imgC3 with coordinateID := some 42 }], []) ∧
    reverseGeocode envC4 [{ imgC3 with coordinateID := some 42 }] =
      .ok ([{ imgC3 with coordinateID := some 42 }], []) ∧
    insertImages dbEmpty [{ imgC3 with coordinateID := some 42 }] =
      { dbEmpty with images := dbEmpty.images ++
          [⟨imgC3.pathLarge, imgC3.pathMedium, imgC3.pathSmall, imgC3.sha256,
            imgC3.timestamp, 42⟩] } :=
  coordinate_cache_hit envC4 dbEmpty imgC3 42 (by decide)

/-- Claim C6: resizing is idempotent: when a file already exists at the
deterministically derived derivative path, `resizeImage` returns that path
with the filesystem unchanged and without decoding or re-encoding the source;
consequently a second call after any successful call performs no image
processing and yields the same path. -/
theorem resize_idempotent (env : Env) (fs : Fs) (path suffix : String) (width : Nat) :
    (lookupFs fs (derivPath path suffix) = .file →
      resizeImage env fs path suffix width = .ok (derivPath path suffix, fs, false)) ∧
    (∀ p fs2 b, resizeImage env fs path suffix width = .ok (p, fs2, b) →
      resizeImage env fs2 path suffix width = .ok (p, fs2, false)) := by
  constructor
  · intro hfile
    simp [resizeImage, hfile]
  · intro p fs2 b hok
    cases hfs : lookupFs fs (derivPath path suffix) with
    | statError m =>
        simp only [resizeImage, hfs] at hok
        exact Outcome.noConfusion hok
    | dir =>
        simp only [resizeImage, hfs] at hok
        exact Outcome.noConfusion hok
    | file =>
        simp only [resizeImage, hfs, Outcome.ok.injEq, Prod.mk.injEq] at hok
        obtain ⟨hp, hfs2, _⟩ := hok
        subst hp
        subst hfs2
        simp [resizeImage, hfs]
    | absent =>
        simp only [resizeImage, hfs] at hok
        split at hok
        · exact Outcome.noConfusion hok
        · split at hok
          · exact Outcome.noConfusion hok
          · split at hok
            · exact Outcome.noConfusion hok
            · simp only [Outcome.ok.injEq, Prod.mk.injEq] at hok
              obtain ⟨hp, hfs2, _⟩ := hok
              subst hp
              have hfile2 : lookupFs fs2 (derivPath path suffix) = .file := by
                rw [← hfs2, lookupFs_updateFs]
              simp [resizeImage, hfile2]

/-- Witness for C6: resizing `d/cat.jpg` to the small width from an empty
filesystem creates the derivative; the second call returns the same path
without processing. -/
theorem resize_idempotent_witness :
    resizeImage envC6 [] "d/cat.jpg" imageSuffixSmall imageWidthSmall =
      .ok ("d/cat-small.jpg", fsC6, true) ∧
    resizeImage envC6 fsC6 "d/cat.jpg" imageSuffixSmall imageWidthSmall =
      .ok ("d/cat-small.jpg", fsC6, false) :=
  ⟨by decide,
   (resize_idempotent envC6 [] "d/cat.jpg" imageSuffixSmall imageWidthSmall).2
     "d/cat-small.jpg" fsC6 true (by decide)⟩

/-- Counterexample to claim C7 as stated: for a Taiwan result whose components
arrive in the order neighborhood, country, administrative area, the stored
city is the administrative-area label, not the neighborhood label — the rules
are order-dependent. -/
theorem taiwan_city_order_counterexample :
    reverseGeocode envC7 [imgC7] =
      .ok ([{ imgC7 with city := "臺北市", country := "Taiwan" }],
        [ExtCall.geocode 25 121]) ∧
    ¬ ("臺北市" = "信義區") := by decide

/-- Claim C7 (amended): with the address components in the order the geocoder
returns them (neighborhood, then administrative area, then country), an
administrative-area label เชียงใหม่ yields the stored city
`Chang Wat Chiang Mai` unless the country component is Taiwan, in which case
the neighborhood label is stored instead; a later component can overwrite the
city, so the outcome depends on the component order. -/
theorem geocode_city_rules_amended (n c : String) :
    geocodeComponents
      [⟨n, ["neighborhood"]⟩,
       ⟨"เชียงใหม่", ["administrative_area_level_1"]⟩,
       ⟨c, ["country"]⟩]
      ⟨"", "", ""⟩ =
      ⟨if c = "Taiwan" then n else "Chang Wat Chiang Mai", c, n⟩ := by
  by_cases hc : c = "Taiwan" <;>
    simp [geocodeComponents, processComponentTypes, applyComponentType,
      cityFromAdminArea, hc]

/-- Claim C8: a run in which the deduplicator keeps no candidate ends
successfully with zero new images, no error, and no inserted row (the store
and filesystem are unchanged). -/
theorem ingest_empty_after_dedup (env : Env) (fs : Fs) (db : DbState)
    (dir : String) (imgs : List Image)
    (hscan : collectFileInfo env dir = .ok imgs)
    (hdedup : removeKnownImages db imgs = []) :
    ingestDirectory env fs db dir = (.ok [], fs, db) := by
  simp only [ingestDirectory, hscan, hdedup]
  cases env.verbose <;>
    simp [resizeImages, setCoordinateID, fixTimezones, reverseGeocode,
      uploadImages, insertImages]

/-- Witness for C8: the single scanned image's hash `deadbeef` is already
stored, so the run returns zero images and leaves the store unchanged. -/
theorem ingest_empty_after_dedup_witness :
    ingestDirectory envC8 [] dbC8 "cats" = (.ok [], [], dbC8) :=
  ingest_empty_after_dedup envC8 [] dbC8 "cats"
    [{ emptyImage with
        pathLarge := "cats/cat.jpg", sha256 := "deadbeef",
        latitude := 13, longitude := 100, timestamp := imgTSNaive }]
    (by decide) (by decide)

/-- Scanning a directory that contains a supported, non-derivative file whose
EXIF block lacks the GPS tag (or the timestamp tag) never produces a candidate
list: the loop aborts with an error at or before that file. -/
theorem collectFileInfoLoop_bad_exif (env : Env) (dir : String)
    (names : List String) (name : String) (hashVal : String) (ed : ExifData)
    (hmem : name ∈ names)
    (hsupp : isSupportedMedia name = true)
    (hsmall : strEndsWith (trimSuffix name (filepathExt name)) imageSuffixSmall = false)
    (hmed : strEndsWith (trimSuffix name (filepathExt name)) imageSuffixMedium = false)
    (hhash : env.hashFile (dir ++ "/" ++ name) = .ok hashVal)
    (hexif : env.exif (dir ++ "/" ++ name) = .ok ed)
    (hbad : (∃ e, ed.latLong = .error e) ∨ (∃ e, ed.dateTime = .error e)) :
    ∀ imgs, ¬ (collectFileInfoLoop env dir names = .ok imgs) := by
  induction names with
  | nil => cases hmem
  | cons n rest ih =>
    rcases List.mem_cons.mp hmem with heq | hmem2
    · subst heq
      intro imgs himgs
      rcases hbad with ⟨e, hll⟩ | ⟨e, hdt⟩
      · simp [collectFileInfoLoop, hsupp, hsmall, hmed, hhash, hexif, hll] at himgs
      · cases hll : ed.latLong with
        | error e2 =>
            simp [collectFileInfoLoop, hsupp, hsmall, hmed, hhash, hexif, hll] at himgs
        | ok ll =>
            obtain ⟨la, lo⟩ := ll
            simp [collectFileInfoLoop, hsupp, hsmall, hmed, hhash, hexif, hll, hdt] at himgs
    · intro imgs himgs
      cases hsupp2 : isSupportedMedia n with
      | false =>
          simp [collectFileInfoLoop, hsupp2] at himgs
          exact ih hmem2 imgs himgs
      | true =>
        cases hskip : (strEndsWith (trimSuffix n (filepathExt n)) imageSuffixSmall ||
            strEndsWith (trimSuffix n (filepathExt n)) imageSuffixMedium) with
        | true =>
            simp [collectFileInfoLoop, hsupp2, hskip] at himgs
            exact ih hmem2 imgs himgs
        | false =>
          cases hh : env.hashFile (dir ++ "/" ++ n) with
          | error e2 => simp [collectFileInfoLoop, hsupp2, hskip, hh] at himgs
          | ok hsh =>
            cases hx : env.exif (dir ++ "/" ++ n) with
            | error e2 => simp [collectFileInfoLoop, hsupp2, hskip, hh, hx] at himgs
            | ok ed2 =>
              cases hll2 : ed2.latLong with
              | error e2 =>
                  simp [collectFileInfoLoop, hsupp2, hskip, hh, hx, hll2] at himgs
              | ok ll =>
                obtain ⟨la, lo⟩ := ll
                cases hdt2 : ed2.dateTime with
                | error e2 =>
                    simp [collectFileInfoLoop, hsupp2, hskip, hh, hx, hll2, hdt2] at himgs
                | ok ct =>
                  cases hrest : collectFileInfoLoop env dir rest with
                  | error e2 =>
                      simp [collectFileInfoLoop, hsupp2, hskip, hh, hx, hll2, hdt2,
                        hrest] at himgs
                  | ok imgs2 => exact ih hmem2 imgs2 hrest

/-- Claim C9: a directory containing a supported file whose embedded metadata
lacks a GPS tag (or a timestamp tag) makes the run abort with an error during
scanning: `IngestDirectory` returns an error and leaves the filesystem and the
store (including rows inserted by earlier runs) unchanged. -/
theorem ingest_missing_gps_aborts (env : Env) (fs : Fs) (db : DbState)
    (dir : String) (names : List String) (name : String) (hashVal : String)
    (ed : ExifData)
    (hdir : env.readDir dir = .ok names)
    (hmem : name ∈ names)
    (hsupp : isSupportedMedia name = true)
    (hsmall : strEndsWith (trimSuffix name (filepathExt name)) imageSuffixSmall = false)
    (hmed : strEndsWith (trimSuffix name (filepathExt name)) imageSuffixMedium = false)
    (hhash : env.hashFile (dir ++ "/" ++ name) = .ok hashVal)
    (hexif : env.exif (dir ++ "/" ++ name) = .ok ed)
    (hbad : (∃ e, ed.latLong = .error e) ∨ (∃ e, ed.dateTime = .error e)) :
    ∃ e, ingestDirectory env fs db dir = (.err e, fs, db) := by
  have hloop := collectFileInfoLoop_bad_exif env dir names name hashVal ed
    hmem hsupp hsmall hmed hhash hexif hbad
  cases hres : collectFileInfoLoop env dir names with
  | ok imgs => exact absurd hres (hloop imgs)
  | error e =>
      refine ⟨e, ?_⟩
      have hscan : collectFileInfo env dir = .error e := by
        simp [collectFileInfo, hdir, hres]
      simp [ingestDirectory, hscan]

/-- Witness for C9: a single supported file with no GPS tag aborts the run and
leaves the previously stored row in place. -/
theorem ingest_missing_gps_aborts_witness :
    ∃ e, ingestDirectory envC9 [] dbC8 "cats" = (.err e, [], dbC8) :=
  ingest_missing_gps_aborts envC9 [] dbC8 "cats" ["cat.jpg"] "cat.jpg" "h9"
    ⟨.error (.other "exif: tag GPSLatitude is not present"), .ok imgTSNaive⟩
    rfl (by decide) (by decide) (by decide) (by decide) rfl rfl
    (.inl ⟨.other "exif: tag GPSLatitude is not present", rfl⟩)

/-- Counterexample to claim C2 as stated: in a successful run whose single
candidate is a coordinate-cache hit, the inserted image row carries the
uncorrected naive timestamp (instant 1685628000 = `2023-06-01 14:00:00` taken
as UTC), not the corrected instant 1685602800 = `2023-06-01 07:00:00 UTC` that
reinterpreting the reading in the zone Asia/Bangkok resolved for this
coordinate would give. -/
theorem cache_hit_inserted_naive_timestamp :
    (ingestDirectory envC2 fsDerivsExist dbC2 "cats").2.2.images =
      [⟨"cats/cat.jpg", "cats/cat-medium.jpg", "cats/cat-small.jpg", "h1",
        imgTSNaive, 42⟩] ∧
    envC2.loadLocation "Asia/Bangkok" = .ok bangkok ∧
    imgTSNaive.instant = wall_2023_06_01_14_00_00 ∧
    ¬ (imgTSNaive.instant = instant_2023_06_01_07_00_00_UTC) := by decide

/-- Claim C2 (amended): a candidate that reaches the persister is inserted with
the timestamp it carries at that point; the timezone corrector rewrites that
timestamp to the corrected absolute instant only for candidates without a
cache-hit marker, while cache-hit candidates pass through unchanged and are
inserted with the uncorrected naive timestamp. -/
theorem inserted_timestamp_amended (env : Env) (db : DbState) (img : Image)
    (cid : Int) (tzName : String) (tz : Zone) :
    (img.coordinateID = some cid → fixTimezones env [img] = .ok ([img], [])) ∧
    (img.coordinateID = none →
      env.timezoneID (parseInLocation img.timestamp.wall utcZone)
        img.latitude img.longitude = .ok tzName →
      env.loadLocation tzName = .ok tz →
      fixTimezones env [img] =
        .ok ([{ img with
                timestamp := ⟨img.timestamp.wall - tz.offset, 0, "UTC"⟩,
                timezone := tz.name }],
          [ExtCall.timezone img.latitude img.longitude])) ∧
    (∀ img2 : Image, (insertImages db [img2]).images.map (fun r => r.timestamp) =
      db.images.map (fun r => r.timestamp) ++ [img2.timestamp]) := by
  refine ⟨?_, ?_, ?_⟩
  · intro hhit
    simp [fixTimezones, hhit]
  · intro hmiss hreq hload
    have hreq2 : env.timezoneID ⟨img.timestamp.wall, 0, "UTC"⟩
        img.latitude img.longitude = .ok tzName := by
      simpa [parseInLocation, utcZone] using hreq
    simp [fixTimezones, getTimezoneID, hmiss, hreq2, hload, parseInLocation,
      utcZone, GoTime.toUTC]
  · intro img2
    cases h2 : img2.coordinateID with
    | some cid2 => simp [insertImages, h2]
    | none =>
        simp [insertImages, h2, getOrCreateLocation_images,
          getOrCreateCoordinates_images]

/-- Witness for C2 (amended): the cache-hit candidate keeps (and gets inserted
with) its naive reading; the identical candidate without the marker gets the
Bangkok-corrected instant. -/
theorem inserted_timestamp_amended_witness :
    fixTimezones envC2 [imgHitC2] = .ok ([imgHitC2], []) ∧
    fixTimezones envC2 [imgMissC2] =
      .ok ([{ imgMissC2 with
              timestamp := ⟨imgMissC2.timestamp.wall - bangkok.offset, 0, "UTC"⟩,
              timezone := bangkok.name }],
        [ExtCall.timezone imgMissC2.latitude imgMissC2.longitude]) ∧
    (insertImages dbC2 [imgHitC2]).images.map (fun r => r.timestamp) =
      dbC2.images.map (fun r => r.timestamp) ++ [imgHitC2.timestamp] :=
  ⟨(inserted_timestamp_amended envC2 dbC2 imgHitC2 42 "Asia/Bangkok" bangkok).1 rfl,
   (inserted_timestamp_amended envC2 dbC2 imgMissC2 42 "Asia/Bangkok" bangkok).2.1
     rfl (by decide) (by decide),
   (inserted_timestamp_amended envC2 dbC2 imgHitC2 42 "Asia/Bangkok" bangkok).2.2
     imgHitC2⟩

/-- Claim C1 (code bug at `ingestor.go:132`-`135`): when the coordinate
resolver's store lookup fails with an error other than not-found, the run does
not abort and does not return that error: `setCoordinateID` does return the
error, but `IngestDirectory` discards it (logging only when verbose) and
continues with the nil slice the failed stage returned, so the run finishes
with success, zero images, and nothing inserted — every candidate is silently
dropped. -/
theorem coordinate_lookup_error_swallowed :
    envC1.getCoordinateID 13 100 = .error (.other "connection reset by peer") ∧
    setCoordinateID envC1
      [{ emptyImage with
          pathLarge := "cats/cat.jpg", pathMedium := "cats/cat-medium.jpg",
          pathSmall := "cats/cat-small.jpg", sha256 := "h1",
          latitude := 13, longitude := 100, timestamp := imgTSNaive }] =
      .error (.other "connection reset by peer") ∧
    ingestDirectory envC1 fsDerivsExist dbEmpty "cats" =
      (.ok [], fsDerivsExist, dbEmpty) := by
  refine ⟨rfl, by decide, by decide⟩

end CatsOfAsia
